import Mathlib

/-!
Verification of the OAuth2 device-authorization client and shared credential
lifecycle manager of the Blackbox CLI repository, against its design
specification.  Only `generateWorkspacePathError` is present as source code in
the repository; the authentication subsystem itself is referenced by the
repository's planning documents, so its operations are modelled from the
specification text and each such definition is marked accordingly.
-/

/-- Modelled from the spec: a TokenSet holds an access token (opaque string),
an optional refresh token, an absolute expiry timestamp, a token type and a
scope string (spec section 3). -/
structure TokenSet where
  accessToken : String
  refreshToken : Option String
  expiry : Nat
  tokenType : String
  scope : String
deriving DecidableEq, Repr

/-- Modelled from the spec: the logical key distinguishing one credential set
from another; the repository documents describe a regular Blackbox identity
and a separate Owlban unlimited identity on the same vendor. -/
inductive ProviderIdentity where
  | blackboxRegular
  | owlbanUnlimited
deriving DecidableEq, Repr

/-- Modelled from the spec (TODO.md, IMPLEMENTATION_PLAN.md): each identity
maps to exactly one credential file path; the Owlban identity stores its
credentials in the separate file `owlban_oauth_creds.json`, isolated from the
regular Blackbox OAuth credential file. -/
def credFilePath : ProviderIdentity → String
  | .blackboxRegular => ".blackboxcli/oauth_creds.json"
  | .owlbanUnlimited => ".blackboxcli/owlban_oauth_creds.json"

/-! ### Credential file serialization

The spec (section 6) requires one JSON *or equivalent structured* document per
identity carrying `access_token`, optional `refresh_token`, `expiry`,
`token_type` and `scope`.  We model the structured document with a
length-prefixed field encoding whose decoder rejects malformed bytes (in
particular the empty file). -/

/-- Little-endian decimal digit characters of a natural number. -/
def digitChars (n : Nat) : List Char := (Nat.digits 10 n).map Nat.digitChar

/-- Numeric value of a digit character. -/
def charVal (c : Char) : Nat := c.toNat - 48

/-- Number denoted by a little-endian list of digit characters. -/
def charsToNat (cs : List Char) : Nat := Nat.ofDigits 10 (cs.map charVal)

/-- Read a `;`-terminated little-endian number from the front of the bytes. -/
def readNat (cs : List Char) : Option (Nat × List Char) :=
  match cs.dropWhile Char.isDigit with
  | ';' :: rest => some (charsToNat (cs.takeWhile Char.isDigit), rest)
  | _ => none

/-- `;`-terminated encoding of a natural number. -/
def encNat (n : Nat) : List Char := digitChars n ++ [';']

/-- Length-prefixed encoding of a string field. -/
def encStr (s : String) : List Char := encNat s.data.length ++ s.data

/-- Read a length-prefixed string field from the front of the bytes. -/
def readStr (cs : List Char) : Option (String × List Char) :=
  match readNat cs with
  | some (n, rest) =>
      if n ≤ rest.length then some (String.mk (rest.take n), rest.drop n)
      else none
  | none => none

/-- Encoding of the optional refresh-token field. -/
def encOpt : Option String → List Char
  | none => ['-']
  | some s => '+' :: encStr s

/-- Read the optional refresh-token field from the front of the bytes. -/
def readOpt (cs : List Char) : Option (Option String × List Char) :=
  match cs with
  | '-' :: rest => some (none, rest)
  | '+' :: rest =>
      match readStr rest with
      | some (s, r) => some (some s, r)
      | none => none
  | _ => none

/-- Modelled from the spec: serialize a TokenSet into the credential-file
document (all five fields of spec section 6). -/
def encodeTokenSet (t : TokenSet) : String :=
  String.mk (encStr t.accessToken ++ encOpt t.refreshToken ++ encNat t.expiry
    ++ encStr t.tokenType ++ encStr t.scope)

/-- Modelled from the spec: parse a credential-file document; `none` means the
bytes are corrupted or unparsable. -/
def decodeTokenSet (s : String) : Option TokenSet :=
  match readStr s.data with
  | none => none
  | some (a, r1) =>
    match readOpt r1 with
    | none => none
    | some (rt, r2) =>
      match readNat r2 with
      | none => none
      | some (e, r3) =>
        match readStr r3 with
        | none => none
        | some (ty, r4) =>
          match readStr r4 with
          | some (sc, []) => some ⟨a, rt, e, ty, sc⟩
          | _ => none

theorem charVal_digitChar : ∀ d < 10, charVal (Nat.digitChar d) = d := by decide

theorem isDigit_digitChar : ∀ d < 10, (Nat.digitChar d).isDigit = true := by decide

theorem charsToNat_digitChars (n : Nat) : charsToNat (digitChars n) = n := by
  unfold charsToNat digitChars
  rw [List.map_map]
  have h : ∀ d ∈ Nat.digits 10 n, (charVal ∘ Nat.digitChar) d = id d := by
    intro d hd
    exact charVal_digitChar d (Nat.digits_lt_base (by norm_num) hd)
  rw [List.map_congr_left h, List.map_id]
  exact Nat.ofDigits_digits 10 n

theorem isDigit_of_mem_digitChars (n : Nat) :
    ∀ c ∈ digitChars n, c.isDigit = true := by
  intro c hc
  rcases List.mem_map.mp hc with ⟨d, hd, rfl⟩
  exact isDigit_digitChar d (Nat.digits_lt_base (by norm_num) hd)

theorem takeWhile_append_all (p : Char → Bool) (l1 l2 : List Char)
    (h : ∀ c ∈ l1, p c = true) :
    List.takeWhile p (l1 ++ l2) = l1 ++ List.takeWhile p l2 := by
  induction l1 with
  | nil => simp
  | cons a l ih =>
      have ha : p a = true := h a (List.mem_cons_self a l)
      simp only [List.cons_append, List.takeWhile_cons, ha, if_true]
      rw [ih fun c hc => h c (List.mem_cons_of_mem a hc)]

theorem dropWhile_append_all (p : Char → Bool) (l1 l2 : List Char)
    (h : ∀ c ∈ l1, p c = true) :
    List.dropWhile p (l1 ++ l2) = List.dropWhile p l2 := by
  induction l1 with
  | nil => simp
  | cons a l ih =>
      have ha : p a = true := h a (List.mem_cons_self a l)
      simp only [List.cons_append, List.dropWhile_cons, ha, if_true]
      exact ih fun c hc => h c (List.mem_cons_of_mem a hc)

theorem readNat_enc (n : Nat) (rest : List Char) :
    readNat (encNat n ++ rest) = some (n, rest) := by
  unfold readNat encNat
  have hd : List.dropWhile Char.isDigit ((digitChars n ++ [';']) ++ rest)
      = ';' :: rest := by
    rw [List.append_assoc]
    rw [dropWhile_append_all _ _ _ (isDigit_of_mem_digitChars n)]
    rfl
  have ht : List.takeWhile Char.isDigit ((digitChars n ++ [';']) ++ rest)
      = digitChars n := by
    rw [List.append_assoc]
    rw [takeWhile_append_all _ _ _ (isDigit_of_mem_digitChars n)]
    simp [List.takeWhile]
  rw [hd, ht, charsToNat_digitChars]
  rfl

theorem readStr_enc (s : String) (rest : List Char) :
    readStr (encStr s ++ rest) = some (s, rest) := by
  unfold readStr encStr
  rw [List.append_assoc, readNat_enc]
  have hlen : s.data.length ≤ (s.data ++ rest).length := by
    simp [List.length_append]
  simp only [hlen, if_true]
  rw [List.take_left, List.drop_left]

theorem readOpt_enc (o : Option String) (rest : List Char) :
    readOpt (encOpt o ++ rest) = some (o, rest) := by
  cases o with
  | none => rfl
  | some s =>
      unfold encOpt readOpt
      simp only [List.cons_append]
      rw [readStr_enc]

theorem decode_encode (t : TokenSet) : decodeTokenSet (encodeTokenSet t) = some t := by
  unfold decodeTokenSet encodeTokenSet
  simp only [List.append_assoc]
  simp only [readStr_enc, readOpt_enc, readNat_enc]
  rw [show encStr t.scope = encStr t.scope ++ [] by simp]
  simp only [readStr_enc]

/-! ### Credential Store -/

/-- Modelled from the spec: the file system visible to the Credential Store,
a partial map from file paths to file contents. -/
def Store : Type := String → Option String

/-- Modelled from the spec: result of `load` — a TokenSet, `NotFound` for a
missing file, or `CorruptedStoreError` for an unparsable file. -/
inductive LoadResult where
  | found (t : TokenSet)
  | notFound
  | corrupted
deriving DecidableEq, Repr

/-- Modelled from the spec: `save(identity, tokenSet)` writes the serialized
TokenSet to the identity's credential file. -/
def save (st : Store) (i : ProviderIdentity) (t : TokenSet) : Store :=
  fun p => if p = credFilePath i then some (encodeTokenSet t) else st p

/-- Modelled from the spec: `load(identity)` reads the identity's credential
file; a missing file is `NotFound`, unparsable bytes are
`CorruptedStoreError`. -/
def load (st : Store) (i : ProviderIdentity) : LoadResult :=
  match st (credFilePath i) with
  | none => .notFound
  | some raw =>
    match decodeTokenSet raw with
    | some t => .found t
    | none => .corrupted

/-- Modelled from the spec: `delete(identity)` removes the identity's
credential file. -/
def deleteCred (st : Store) (i : ProviderIdentity) : Store :=
  fun p => if p = credFilePath i then none else st p

/-- Modelled from the spec: how the caller consumes a `load` result — both
`NotFound` and `CorruptedStoreError` are treated as absence of a stored token
and require a fresh login. -/
def treatAsAbsent : LoadResult → Option TokenSet
  | .found t => some t
  | .notFound => none
  | .corrupted => none

/-! ### Token Refresher -/

/-- Modelled from the spec: body of a successful token-endpoint refresh
response; the server may omit the refresh token. -/
structure RefreshSuccess where
  accessToken : String
  refreshToken : Option String
  expiry : Nat
  tokenType : String
  scope : String
deriving DecidableEq, Repr

/-- Modelled from the spec: the possible refresh-exchange responses. -/
inductive RefreshResponse where
  | ok (r : RefreshSuccess)
  | invalidGrant
  | networkError
deriving DecidableEq, Repr

/-- Modelled from the spec: errors surfaced by `refresh`. -/
inductive RefreshError where
  | invalidGrantError
  | networkErrorTransient
deriving DecidableEq, Repr

/-- Modelled from the spec: `refresh(tokenSet, config)` exchanges the stored
refresh token; on success the new TokenSet takes the response's refresh token
when present and retains the prior one when the response omits it. -/
def refresh (t : TokenSet) (resp : RefreshResponse) : Except RefreshError TokenSet :=
  match resp with
  | .ok r =>
      .ok { accessToken := r.accessToken
            refreshToken := match r.refreshToken with
              | some s => some s
              | none => t.refreshToken
            expiry := r.expiry
            tokenType := r.tokenType
            scope := r.scope }
  | .invalidGrant => .error .invalidGrantError
  | .networkError => .error .networkErrorTransient

/-! ### Shared Token Manager -/

/-- Modelled from the spec: outcome of an in-flight refresh as seen by the
Shared Token Manager. -/
inductive RefreshOutcome where
  | refreshed (t : TokenSet)
  | invalidGrant
  | networkError
deriving DecidableEq, Repr

/-- Modelled from the spec: per-identity Shared Token Manager state machine —
`Empty`, `Valid`, `Refreshing` (with the count of callers waiting on the
in-flight refresh) and `Expired`. -/
inductive MState where
  | empty
  | valid (t : TokenSet)
  | refreshing (t : TokenSet) (waiters : Nat)
  | expired (t : TokenSet)
deriving DecidableEq, Repr

/-- Modelled from the spec: result of `getAccessToken` — an access token,
`ReauthRequiredError`, or a transient failure of the refresh attempt. -/
inductive GetOutcome where
  | token (a : String)
  | reauthRequired
  | transientFailure
deriving DecidableEq, Repr

/-- Modelled from the spec: safety margin before expiry within which a token
is refreshed rather than served (e.g. 60 seconds). -/
def safetyMargin : Nat := 60

/-- Modelled from the spec: effect of a completed refresh on a caller and the
manager state; the third component counts the network refresh calls issued. -/
def refreshStep (t : TokenSet) (r : RefreshOutcome) : GetOutcome × MState × Nat :=
  match r with
  | .refreshed t2 => (.token t2.accessToken, .valid t2, 1)
  | .invalidGrant => (.reauthRequired, .empty, 1)
  | .networkError => (.transientFailure, .expired t, 1)

/-- Modelled from the spec: `getAccessToken(identity)` as an atomic step —
serve a cached valid token, refresh when expired or near-expiry (the refresh
response is the `r` argument), and surface `ReauthRequiredError` immediately
on `Empty`; the third component counts the network refresh calls issued. -/
def getAccessToken (st : MState) (now : Nat) (r : RefreshOutcome) :
    GetOutcome × MState × Nat :=
  match st with
  | .empty => (.reauthRequired, .empty, 0)
  | .valid t =>
      if now + safetyMargin < t.expiry then (.token t.accessToken, .valid t, 0)
      else refreshStep t r
  | .expired t => refreshStep t r
  | .refreshing t _w =>
      match r with
      | .refreshed t2 => (.token t2.accessToken, .valid t2, 0)
      | .invalidGrant => (.reauthRequired, .empty, 0)
      | .networkError => (.transientFailure, .expired t, 0)

/-- Modelled from the spec: interleaved events at one identity's manager —
a caller arriving in `getAccessToken`, or the in-flight refresh completing. -/
inductive MEvent where
  | arrive
  | complete (o : RefreshOutcome)
deriving DecidableEq, Repr

/-- Modelled from the spec: one event of the concurrent manager.  A caller
arriving on `Expired` starts the single refresh (one network call) and moves
the state to `Refreshing`; a caller arriving while `Refreshing` joins the
waiters of the in-flight refresh instead of issuing its own call; completion
resolves the `Refreshing` state.  The second component counts the network
refresh calls issued by the event. -/
def mstep (s : MState) : MEvent → MState × Nat
  | .arrive =>
    match s with
    | .empty => (.empty, 0)
    | .valid t => (.valid t, 0)
    | .expired t => (.refreshing t 0, 1)
    | .refreshing t w => (.refreshing t (w + 1), 0)
  | .complete o =>
    match s with
    | .refreshing t _ =>
      (match o with
       | .refreshed t2 => .valid t2
       | .invalidGrant => .empty
       | .networkError => .expired t, 0)
    | s2 => (s2, 0)

/-- Run a sequence of manager events, accumulating issued refresh calls. -/
def mrun (s : MState) : List MEvent → MState × Nat
  | [] => (s, 0)
  | e :: es =>
      let p := mstep s e
      let q := mrun p.1 es
      (q.1, p.2 + q.2)

/-! ### Device Authorization Client polling -/

/-- Modelled from the spec: the server's possible responses to one poll of the
token endpoint during the device-authorization grant (HTTP 429 rate limiting
is listed separately but treated as `slow_down`). -/
inductive PollResponse where
  | pending
  | slowDown
  | rateLimited
  | denied
  | expiredCode
  | malformed
  | success (t : TokenSet)
deriving DecidableEq, Repr

/-- Modelled from the spec: terminal outcomes of `pollForToken`. -/
inductive PollOutcome where
  | token (t : TokenSet)
  | accessDenied
  | expiredGrant
  | protocolError
  | timeout
deriving DecidableEq, Repr

/-- Modelled from the spec: the polling loop.  `resp k` is the server's
response to the `k`-th network call; `t` is the current time and a poll is
issued only while `t` is before the device code's absolute expiry, each
`authorization_pending` sleeps the current interval, and `slow_down` (and 429)
increase the interval by 5 seconds and continue.  Returns the outcome together
with the times at which network calls were issued; the `fuel` argument bounds
the structural recursion. -/
def pollAux (resp : Nat → PollResponse) :
    Nat → Nat → Nat → Nat → Nat → PollOutcome × List Nat
  | 0, _, _, _, _ => (.timeout, [])
  | fuel + 1, interval, expiry, t, k =>
      if expiry ≤ t then (.timeout, [])
      else
        match resp k with
        | .pending =>
            let p := pollAux resp fuel interval expiry (t + interval) (k + 1)
            (p.1, t :: p.2)
        | .slowDown =>
            let p := pollAux resp fuel (interval + 5) expiry (t + interval + 5) (k + 1)
            (p.1, t :: p.2)
        | .rateLimited =>
            let p := pollAux resp fuel (interval + 5) expiry (t + interval + 5) (k + 1)
            (p.1, t :: p.2)
        | .denied => (.accessDenied, [t])
        | .expiredCode => (.expiredGrant, [t])
        | .malformed => (.protocolError, [t])
        | .success ts => (.token ts, [t])

/-- Modelled from the spec: `pollForToken(deviceAuth, pkce)` polls from time 0
until success, a terminal response, or the device code's expiry. -/
def pollForToken (resp : Nat → PollResponse) (interval expiry : Nat) :
    PollOutcome × List Nat :=
  pollAux resp (expiry + 1) interval expiry 0 0

/-! ### Auth Client Facade -/

/-- Modelled from the spec: `logout(identity)` clears the cached manager state
and deletes the stored credential file. -/
def logout (_m : MState) (st : Store) (i : ProviderIdentity) : MState × Store :=
  (.empty, deleteCred st i)

/-! ### Workspace error helper (from
`packages/core/src/tools/workspace-error-helper.ts`) -/

/-- Generates a user-friendly error message when a file path is outside the
workspace (translated from `generateWorkspacePathError`). -/
def generateWorkspacePathError (_filePath : String)
    (_workspaceDirectories : List String) : String :=
  "File path must be within one of the workspace directories"

/-! ### Supporting lemmas -/

theorem decodeTokenSet_empty : decodeTokenSet "" = none := by decide

theorem mrun_arrive_refreshing (t : TokenSet) :
    ∀ (n w : Nat), mrun (.refreshing t w) (List.replicate n .arrive)
      = (.refreshing t (w + n), 0) := by
  intro n
  induction n with
  | zero => intro w; simp [mrun]
  | succ n ih =>
      intro w
      rw [List.replicate_succ]
      simp only [mrun, mstep]
      rw [ih (w + 1)]
      simp only [Nat.add_zero]
      congr 2
      omega

/-! ### Claim theorems -/

/-- Claim C2: for every identity and every TokenSet, saving through the
Credential Store and then loading returns a TokenSet equal to the saved one
in every field. -/
theorem save_load_roundtrip (st : Store) (i : ProviderIdentity) (t : TokenSet) :
    load (save st i t) i = .found t := by
  unfold load save
  simp [decode_encode]

/-- Claim C6: loading a credential file truncated to zero bytes yields
`CorruptedStoreError` rather than a crash, and the caller treats that result
identically to `NotFound`. -/
theorem load_corrupted_zero_byte (st : Store) (i : ProviderIdentity)
    (h : st (credFilePath i) = some "") :
    load st i = .corrupted ∧
    treatAsAbsent (load st i) = treatAsAbsent .notFound := by
  have hl : load st i = .corrupted := by
    unfold load
    rw [h]
    simp [decodeTokenSet_empty]
  exact ⟨hl, by rw [hl]; rfl⟩

theorem load_corrupted_zero_byte_witness :
    ((fun _ => some "") : Store) (credFilePath .owlbanUnlimited) = some "" ∧
    (load (fun _ => some "") .owlbanUnlimited = .corrupted ∧
      treatAsAbsent (load (fun _ => some "") .owlbanUnlimited)
        = treatAsAbsent .notFound) :=
  ⟨rfl, load_corrupted_zero_byte (fun _ => some "") .owlbanUnlimited rfl⟩

/-- Claim C7: a successful refresh whose response omits a refresh token
retains the prior refresh token; a response that includes one carries the new
one into the returned TokenSet. -/
theorem refresh_token_retention (t : TokenSet) (a : String) (e : Nat)
    (ty sc s : String) :
    refresh t (.ok ⟨a, none, e, ty, sc⟩)
      = .ok ⟨a, t.refreshToken, e, ty, sc⟩ ∧
    refresh t (.ok ⟨a, some s, e, ty, sc⟩)
      = .ok ⟨a, some s, e, ty, sc⟩ :=
  ⟨rfl, rfl⟩

/-- Claim C8: the credential-file path map is injective on identities — in
particular the Owlban unlimited identity uses a file distinct from the regular
Blackbox identity on the same vendor. -/
theorem credFilePath_no_collision :
    Function.Injective credFilePath ∧
    credFilePath .owlbanUnlimited ≠ credFilePath .blackboxRegular := by
  constructor
  · intro a b h
    revert h
    cases a <;> cases b <;> decide
  · decide

theorem credFilePath_no_collision_witness :
    credFilePath .owlbanUnlimited = credFilePath .owlbanUnlimited ∧
    ProviderIdentity.owlbanUnlimited = ProviderIdentity.owlbanUnlimited :=
  ⟨rfl, credFilePath_no_collision.1
    (show credFilePath .owlbanUnlimited = credFilePath .owlbanUnlimited
      from rfl)⟩

/-- Claim C9: `logout` is idempotent — the second call is a no-op that
succeeds — and after either call the cached manager state is cleared and the
stored credential file is deleted. -/
theorem logout_idempotent (m : MState) (st : Store) (i : ProviderIdentity) :
    logout (logout m st i).1 (logout m st i).2 i = logout m st i ∧
    (logout m st i).1 = .empty ∧
    (logout m st i).2 (credFilePath i) = none := by
  refine ⟨?_, rfl, by simp [logout, deleteCred]⟩
  unfold logout
  refine congrArg (Prod.mk MState.empty) ?_
  funext p
  unfold deleteCred
  by_cases hp : p = credFilePath i <;> simp [hp]

/-- Claim C5: a refresh failing with `InvalidGrantError` on an expired or
near-expiry cached token clears the cached token (state `Empty`) and surfaces
`ReauthRequiredError`; every subsequent `getAccessToken` call on the empty
state immediately returns `ReauthRequiredError` with zero network calls. -/
theorem invalidGrant_clears_and_reauth (t : TokenSet) (now now2 : Nat)
    (h : t.expiry ≤ now + safetyMargin) :
    getAccessToken (.valid t) now .invalidGrant = (.reauthRequired, .empty, 1) ∧
    getAccessToken (.expired t) now .invalidGrant = (.reauthRequired, .empty, 1) ∧
    ∀ r, getAccessToken .empty now2 r = (.reauthRequired, .empty, 0) := by
  refine ⟨?_, rfl, fun r => rfl⟩
  have hn : ¬ (now + safetyMargin < t.expiry) := by omega
  simp [getAccessToken, hn, refreshStep]

theorem invalidGrant_clears_and_reauth_witness :
    (⟨"A1", some "R1", 100, "Bearer", "s1 s2"⟩ : TokenSet).expiry
      ≤ 100 + safetyMargin ∧
    (getAccessToken (.valid ⟨"A1", some "R1", 100, "Bearer", "s1 s2"⟩) 100
        .invalidGrant = (.reauthRequired, .empty, 1) ∧
      getAccessToken (.expired ⟨"A1", some "R1", 100, "Bearer", "s1 s2"⟩) 100
        .invalidGrant = (.reauthRequired, .empty, 1) ∧
      ∀ r, getAccessToken .empty 0 r = (.reauthRequired, .empty, 0)) :=
  ⟨by decide,
    invalidGrant_clears_and_reauth ⟨"A1", some "R1", 100, "Bearer", "s1 s2"⟩
      100 0 (by decide)⟩

/-- Claim C1: starting from an expired cached token, any number of concurrent
`getAccessToken` callers issue at most one network refresh call — the first
arrival transitions the manager to `Refreshing` and issues the single call,
and every caller arriving while the refresh is in flight joins its waiters
instead of issuing its own call. -/
theorem sharedManager_single_refresh (t : TokenSet) (n : Nat) :
    mrun (.expired t) (List.replicate (n + 1) .arrive) = (.refreshing t n, 1) := by
  rw [List.replicate_succ]
  simp only [mrun, mstep]
  rw [mrun_arrive_refreshing]
  simp

/-- Claim C10: `generateWorkspacePathError` always returns the fixed message,
independent of both the offending path and the workspace directory list. -/
theorem workspace_error_constant (fp fp2 : String) (ws ws2 : List String) :
    generateWorkspacePathError fp ws
      = "File path must be within one of the workspace directories" ∧
    generateWorkspacePathError fp ws = generateWorkspacePathError fp2 ws2 :=
  ⟨rfl, rfl⟩

theorem pollAux_step_pending (resp : Nat → PollResponse)
    (fuel interval expiry t k : Nat) (hf : 0 < fuel)
    (hr : resp k = .pending) (ht : t < expiry) :
    pollAux resp fuel interval expiry t k =
      ((pollAux resp (fuel - 1) interval expiry (t + interval) (k + 1)).1,
        t :: (pollAux resp (fuel - 1) interval expiry (t + interval) (k + 1)).2) := by
  cases fuel with
  | zero => omega
  | succ fuel =>
      have hn : ¬ expiry ≤ t := by omega
      simp [pollAux, hr, hn]

theorem pollAux_step_slow (resp : Nat → PollResponse)
    (fuel interval expiry t k : Nat) (hf : 0 < fuel)
    (hr : resp k = .slowDown) (ht : t < expiry) :
    pollAux resp fuel interval expiry t k =
      ((pollAux resp (fuel - 1) (interval + 5) expiry (t + interval + 5) (k + 1)).1,
        t :: (pollAux resp (fuel - 1) (interval + 5) expiry (t + interval + 5) (k + 1)).2) := by
  cases fuel with
  | zero => omega
  | succ fuel =>
      have hn : ¬ expiry ≤ t := by omega
      simp [pollAux, hr, hn]

theorem pollAux_step_rate (resp : Nat → PollResponse)
    (fuel interval expiry t k : Nat) (hf : 0 < fuel)
    (hr : resp k = .rateLimited) (ht : t < expiry) :
    pollAux resp fuel interval expiry t k =
      ((pollAux resp (fuel - 1) (interval + 5) expiry (t + interval + 5) (k + 1)).1,
        t :: (pollAux resp (fuel - 1) (interval + 5) expiry (t + interval + 5) (k + 1)).2) := by
  cases fuel with
  | zero => omega
  | succ fuel =>
      have hn : ¬ expiry ≤ t := by omega
      simp [pollAux, hr, hn]

theorem pollAux_step_success (resp : Nat → PollResponse)
    (fuel interval expiry t k : Nat) (tok : TokenSet) (hf : 0 < fuel)
    (hr : resp k = .success tok) (ht : t < expiry) :
    pollAux resp fuel interval expiry t k = (.token tok, [t]) := by
  cases fuel with
  | zero => omega
  | succ fuel =>
      have hn : ¬ expiry ≤ t := by omega
      simp [pollAux, hr, hn]

theorem pollAux_never_success (resp : Nat → PollResponse) (expiry : Nat)
    (h : ∀ n, resp n = .pending ∨ resp n = .slowDown ∨ resp n = .rateLimited) :
    ∀ (fuel interval t k : Nat),
      (pollAux resp fuel interval expiry t k).1 = .timeout ∧
      ∀ tm ∈ (pollAux resp fuel interval expiry t k).2, tm < expiry := by
  intro fuel
  induction fuel with
  | zero =>
      intro interval t k
      exact ⟨rfl, by simp [pollAux]⟩
  | succ fuel ih =>
      intro interval t k
      by_cases hle : expiry ≤ t
      · exact ⟨by simp [pollAux, hle], by simp [pollAux, hle]⟩
      · have hlt : t < expiry := by omega
        rcases h k with hk | hk | hk
        · rw [pollAux_step_pending resp (fuel + 1) interval expiry t k
            (by omega) hk hlt]
          refine ⟨(ih interval (t + interval) (k + 1)).1, ?_⟩
          intro tm hm
          rcases List.mem_cons.mp hm with rfl | hm2
          · exact hlt
          · exact (ih interval (t + interval) (k + 1)).2 tm
              (by simpa using hm2)
        · rw [pollAux_step_slow resp (fuel + 1) interval expiry t k
            (by omega) hk hlt]
          refine ⟨(ih (interval + 5) (t + interval + 5) (k + 1)).1, ?_⟩
          intro tm hm
          rcases List.mem_cons.mp hm with rfl | hm2
          · exact hlt
          · exact (ih (interval + 5) (t + interval + 5) (k + 1)).2 tm
              (by simpa using hm2)
        · rw [pollAux_step_rate resp (fuel + 1) interval expiry t k
            (by omega) hk hlt]
          refine ⟨(ih (interval + 5) (t + interval + 5) (k + 1)).1, ?_⟩
          intro tm hm
          rcases List.mem_cons.mp hm with rfl | hm2
          · exact hlt
          · exact (ih (interval + 5) (t + interval + 5) (k + 1)).2 tm
              (by simpa using hm2)

/-- Claim C4: polling that never receives a success (only
`authorization_pending`, `slow_down` or HTTP 429 responses) terminates with
`TimeoutError`, and every network call it issued happened strictly before the
device code's declared expiry — no calls are performed after the expiry is
reached. -/
theorem poll_timeout_bounded (resp : Nat → PollResponse) (interval expiry : Nat)
    (h : ∀ n, resp n = .pending ∨ resp n = .slowDown ∨ resp n = .rateLimited) :
    (pollForToken resp interval expiry).1 = .timeout ∧
    ∀ tm ∈ (pollForToken resp interval expiry).2, tm < expiry := by
  unfold pollForToken
  exact ⟨(pollAux_never_success resp expiry h (expiry + 1) interval 0 0).1,
    (pollAux_never_success resp expiry h (expiry + 1) interval 0 0).2⟩

theorem poll_timeout_bounded_witness :
    (∀ n, (fun _ : Nat => PollResponse.pending) n = PollResponse.pending ∨
      (fun _ : Nat => PollResponse.pending) n = PollResponse.slowDown ∨
      (fun _ : Nat => PollResponse.pending) n = PollResponse.rateLimited) ∧
    ((pollForToken (fun _ : Nat => PollResponse.pending) 5 20).1 = .timeout ∧
      ∀ tm ∈ (pollForToken (fun _ : Nat => PollResponse.pending) 5 20).2, tm < 20) :=
  ⟨fun _ => Or.inl rfl,
    poll_timeout_bounded (fun _ : Nat => PollResponse.pending) 5 20
      (fun _ => Or.inl rfl)⟩

/-- Claim C3: if the first five polls answer `authorization_pending` and the
sixth answers success, `pollForToken` returns the successful TokenSet and
issues exactly six network calls. -/
theorem poll_pending_five_then_success (resp : Nat → PollResponse)
    (tok : TokenSet) (interval expiry : Nat)
    (hpend : ∀ n, n < 5 → resp n = .pending)
    (hsucc : resp 5 = .success tok)
    (hint : 0 < interval) (hexp : 5 * interval < expiry) :
    (pollForToken resp interval expiry).1 = .token tok ∧
    (pollForToken resp interval expiry).2.length = 6 := by
  unfold pollForToken
  rw [pollAux_step_pending resp (expiry + 1) interval expiry 0 0
    (by omega) (hpend 0 (by omega)) (by omega)]
  rw [pollAux_step_pending resp (expiry + 1 - 1) interval expiry
    (0 + interval) (0 + 1) (by omega) (hpend (0 + 1) (by omega)) (by omega)]
  rw [pollAux_step_pending resp (expiry + 1 - 1 - 1) interval expiry
    (0 + interval + interval) (0 + 1 + 1) (by omega)
    (hpend (0 + 1 + 1) (by omega)) (by omega)]
  rw [pollAux_step_pending resp (expiry + 1 - 1 - 1 - 1) interval expiry
    (0 + interval + interval + interval) (0 + 1 + 1 + 1) (by omega)
    (hpend (0 + 1 + 1 + 1) (by omega)) (by omega)]
  rw [pollAux_step_pending resp (expiry + 1 - 1 - 1 - 1 - 1) interval expiry
    (0 + interval + interval + interval + interval) (0 + 1 + 1 + 1 + 1)
    (by omega) (hpend (0 + 1 + 1 + 1 + 1) (by omega)) (by omega)]
  rw [pollAux_step_success resp (expiry + 1 - 1 - 1 - 1 - 1 - 1) interval expiry
    (0 + interval + interval + interval + interval + interval)
    (0 + 1 + 1 + 1 + 1 + 1) tok (by omega) hsucc (by omega)]
  constructor <;> simp

theorem poll_pending_five_then_success_witness :
    (∀ n, n < 5 →
      (fun m => if m < 5 then PollResponse.pending
        else PollResponse.success ⟨"A1", some "R1", 3600, "Bearer", "s1 s2"⟩) n
        = PollResponse.pending) ∧
    (fun m => if m < 5 then PollResponse.pending
      else PollResponse.success ⟨"A1", some "R1", 3600, "Bearer", "s1 s2"⟩) 5
      = PollResponse.success ⟨"A1", some "R1", 3600, "Bearer", "s1 s2"⟩ ∧
    0 < 5 ∧ 5 * 5 < 600 ∧
    ((pollForToken (fun m => if m < 5 then PollResponse.pending
        else PollResponse.success ⟨"A1", some "R1", 3600, "Bearer", "s1 s2"⟩)
        5 600).1
      = .token ⟨"A1", some "R1", 3600, "Bearer", "s1 s2"⟩ ∧
     (pollForToken (fun m => if m < 5 then PollResponse.pending
        else PollResponse.success ⟨"A1", some "R1", 3600, "Bearer", "s1 s2"⟩)
        5 600).2.length = 6) :=
  ⟨fun n hn => by simp [hn], rfl, by decide, by decide,
    poll_pending_five_then_success
      (fun m => if m < 5 then PollResponse.pending
        else PollResponse.success ⟨"A1", some "R1", 3600, "Bearer", "s1 s2"⟩)
      ⟨"A1", some "R1", 3600, "Bearer", "s1 s2"⟩ 5 600
      (fun n hn => by simp [hn]) rfl (by decide) (by decide)⟩
